import Mathlib

/-!
Shallow embedding of the team-member edit component (EditTeamMember) of the
flock web client: the per-type capability table, the option resolvers for
skills, the model-selection handler, the mutation success/failure handlers,
the local field validation, and the view selection between an inline panel
and a modal dialog.
-/

namespace Flock

/-! JavaScript string helpers, translated to character-list operations
(`String.prototype.startsWith` / `String.prototype.endsWith`). -/

/-- Embedding of JavaScript `s.startsWith(p)`. -/
def jsStartsWith (s p : String) : Bool := p.toList.isPrefixOf s.toList

/-- Embedding of JavaScript `s.endsWith(p)`. -/
def jsEndsWith (s p : String) : Bool := p.toList.isSuffixOf s.toList

/-! Data model -/

/-- The `MemberTypes` union type of the source. -/
inductive MemberTypes
  | root
  | leader
  | worker
  | freelancer
  | freelancer_root
  | chatbot
  | ragbot
  | workflow
deriving DecidableEq, Fintype, Repr

/-- The `MemberConfigs` interface of the source. -/
structure MemberConfigs where
  selection : List MemberTypes
  enableSkillTools : Bool
  enableUploadTools : Bool
  enableInterrupt : Bool
  enableHumanTool : Bool
deriving DecidableEq, Repr

/-- The `ALLOWED_MEMBER_CONFIGS` record of the source, keyed by the
enumerated member type. -/
def ALLOWED_MEMBER_CONFIGS : MemberTypes → MemberConfigs
  | .root =>
    { selection := [.root]
      enableSkillTools := false
      enableUploadTools := false
      enableInterrupt := false
      enableHumanTool := false }
  | .leader =>
    { selection := [.worker, .leader]
      enableSkillTools := false
      enableUploadTools := false
      enableInterrupt := false
      enableHumanTool := false }
  | .worker =>
    { selection := [.worker, .leader]
      enableSkillTools := true
      enableUploadTools := true
      enableInterrupt := false
      enableHumanTool := false }
  | .freelancer =>
    { selection := [.freelancer]
      enableSkillTools := true
      enableUploadTools := true
      enableInterrupt := true
      enableHumanTool := true }
  | .freelancer_root =>
    { selection := [.freelancer_root]
      enableSkillTools := true
      enableUploadTools := true
      enableInterrupt := true
      enableHumanTool := true }
  | .chatbot =>
    { selection := [.chatbot]
      enableSkillTools := true
      enableUploadTools := true
      enableInterrupt := true
      enableHumanTool := true }
  | .ragbot =>
    { selection := [.ragbot]
      enableSkillTools := false
      enableUploadTools := true
      enableInterrupt := false
      enableHumanTool := false }
  | .workflow =>
    { selection := [.ragbot]
      enableSkillTools := false
      enableUploadTools := true
      enableInterrupt := false
      enableHumanTool := false }

/-- The string spelling of each member type, as used for the keys of the
`ALLOWED_MEMBER_CONFIGS` record and for the `type` field of a member. -/
def memberTypeToString : MemberTypes → String
  | .root => "root"
  | .leader => "leader"
  | .worker => "worker"
  | .freelancer => "freelancer"
  | .freelancer_root => "freelancer_root"
  | .chatbot => "chatbot"
  | .ragbot => "ragbot"
  | .workflow => "workflow"

/-- The eight key strings of the `ALLOWED_MEMBER_CONFIGS` record. -/
def enumeratedTypeStrings : List String :=
  ["root", "leader", "worker", "freelancer", "freelancer_root",
   "chatbot", "ragbot", "workflow"]

/-- Capability lookup `ALLOWED_MEMBER_CONFIGS[type]` on an arbitrary string
key: a TypeScript record lookup yields the stored value on one of the eight
keys and `undefined` (here `none`, a failure the component cannot recover
from) on any other string. -/
def capabilitiesFor (s : String) : Option MemberConfigs :=
  if s = "root" then some (ALLOWED_MEMBER_CONFIGS .root)
  else if s = "leader" then some (ALLOWED_MEMBER_CONFIGS .leader)
  else if s = "worker" then some (ALLOWED_MEMBER_CONFIGS .worker)
  else if s = "freelancer" then some (ALLOWED_MEMBER_CONFIGS .freelancer)
  else if s = "freelancer_root" then some (ALLOWED_MEMBER_CONFIGS .freelancer_root)
  else if s = "chatbot" then some (ALLOWED_MEMBER_CONFIGS .chatbot)
  else if s = "ragbot" then some (ALLOWED_MEMBER_CONFIGS .ragbot)
  else if s = "workflow" then some (ALLOWED_MEMBER_CONFIGS .workflow)
  else none

/-! Skill and upload catalogs and their option resolvers. -/

/-- A skill catalog entry (id and name are what the resolver uses). -/
structure Skill where
  id : Nat
  name : String
deriving DecidableEq, Repr

/-- A skill option as produced by the resolver: the skill spread together
with `label` and `value` decorations. -/
structure SkillOption where
  id : Nat
  name : String
  label : String
  value : Nat
deriving DecidableEq, Repr

/-- The per-skill decoration `{...skill, label: skill.name, value: skill.id}`. -/
def toSkillOption (s : Skill) : SkillOption :=
  { id := s.id, name := s.name, label := s.name, value := s.id }

/-- The `skillOptions` computation of the source: filter out the
`ask-human` tool unless `enableHumanTool`, then decorate each skill with
`label`/`value`. -/
def skillOptions (skills : List Skill) (memberConfig : MemberConfigs) : List SkillOption :=
  (skills.filter fun skill =>
      (skill.name != "ask-human") || memberConfig.enableHumanTool).map toSkillOption

/-- An upload catalog entry. -/
structure Upload where
  id : Nat
  name : String
deriving DecidableEq, Repr

/-- An upload option: the upload spread together with `label`/`value`. -/
structure UploadOption where
  id : Nat
  name : String
  label : String
  value : Nat
deriving DecidableEq, Repr

/-- The `uploadOptions` computation of the source: decorate every upload,
with no filtering. -/
def uploadOptions (uploads : List Upload) : List UploadOption :=
  uploads.map fun u => { id := u.id, name := u.name, label := u.name, value := u.id }

/-! Model catalog and model selection. -/

/-- The provider object nested in a model catalog entry. -/
structure Provider where
  provider_name : String
deriving DecidableEq, Repr

/-- A model catalog entry `{ai_model_name, provider: {provider_name}}`. -/
structure AIModel where
  ai_model_name : String
  provider : Provider
deriving DecidableEq, Repr

/-- The lookup `models?.data.find(model => model.ai_model_name === name)`:
`models` is `none` while the catalog has not loaded. -/
def modelLookup (models : Option (List AIModel)) (name : String) : Option AIModel :=
  models.bind fun l => l.find? fun m => m.ai_model_name == name

/-! The form draft (the `MemberUpdate` values held by the form). -/

/-- The editable draft of a member held by the form. -/
structure MemberDraft where
  memberType : String
  name : Option String
  role : Option String
  backstory : Option String
  model : Option String
  provider : Option String
  temperature : Option ℚ
  interrupt : Bool
  skills : List SkillOption
  uploads : List UploadOption
deriving DecidableEq, Repr

/-- The state touched by `onModelSelect`: the form draft plus the
`selectedModelProvider` React state. -/
structure ModelSelectState where
  draft : MemberDraft
  selectedModelProvider : String
deriving DecidableEq, Repr

/-- The `onModelSelect` handler: look the model up by name in the catalog;
on success set `model`, `provider` and `selectedModelProvider` together; on
a failed lookup do nothing. -/
def onModelSelect (models : Option (List AIModel)) (modelName : String)
    (st : ModelSelectState) : ModelSelectState :=
  match modelLookup models modelName with
  | some selectedModel =>
      { draft :=
          { st.draft with
            model := some modelName
            provider := some selectedModel.provider.provider_name }
        selectedModelProvider := selectedModel.provider.provider_name }
  | none => st

/-- The initial value of the `selectedModelProvider` React state. -/
def initialSelectedModelProvider : String := "openai"

/-- The two events that can change `selectedModelProvider`: an explicit
selection through `onModelSelect`, or the `useEffect` that runs when the
member's stored model or the model catalog changes. -/
inductive ProviderEvent
  | modelSelect (modelName : String)
  | memberModelEffect
deriving DecidableEq, Repr

/-- One step of the `selectedModelProvider` state: `onModelSelect` updates
it only when the lookup of the selected name succeeds; the `useEffect`
updates it only when the member has a stored model that is found in the
catalog. -/
def providerStep (models : Option (List AIModel)) (memberModel : Option String)
    (e : ProviderEvent) (p : String) : String :=
  match e with
  | .modelSelect modelName =>
      match modelLookup models modelName with
      | some m => m.provider.provider_name
      | none => p
  | .memberModelEffect =>
      match memberModel with
      | some mm =>
          match modelLookup models mm with
          | some m => m.provider.provider_name
          | none => p
      | none => p

/-! The edit session and the mutation handlers. -/

/-- A toast sent to the notification sink: `(title, description, status)`. -/
structure Toast where
  title : String
  description : String
  status : String
deriving DecidableEq, Repr

/-- The outcome of the update-member API call: the server's member on
success, an `ApiError` whose body may carry a `detail` string on failure. -/
inductive MutationResult
  | success (data : MemberDraft)
  | failure (detail : Option String)
deriving DecidableEq, Repr

/-- State of one edit session: the last committed member snapshot (the
form's reset target), the working draft, whether the session is open, and
whether a submission is in flight. -/
structure SessionState where
  committed : MemberDraft
  draft : MemberDraft
  isOpen : Bool
  submitting : Bool
deriving DecidableEq, Repr

/-- The form's `isDirty`: the draft differs from the committed snapshot. -/
def isDirty (st : SessionState) : Bool := st.draft != st.committed

/-- The template-literal rendering of `err.body?.detail` — a missing detail
prints as the string `undefined`. -/
def renderDetail (detail : Option String) : String :=
  match detail with
  | some d => d
  | none => "undefined"

/-- The mutation's `onSuccess`/`onError` handlers as one step: on success
show the success toast, `reset(data)` (committed snapshot and draft both
become the server response) and close; on error show the error toast with
the rendered detail and leave everything but `submitting` alone. The third
component is the list of update requests the handler itself issues: the
source issues none (no automatic retry). -/
def onMutationResult (st : SessionState) (r : MutationResult) :
    SessionState × List Toast × List MemberDraft :=
  match r with
  | .success data =>
      ({ committed := data, draft := data, isOpen := false, submitting := false },
       [{ title := "Success!", description := "Team updated successfully.",
          status := "success" }],
       [])
  | .failure detail =>
      ({ st with submitting := false },
       [{ title := "Something went wrong.", description := renderDetail detail,
          status := "error" }],
       [])

/-! Local field validation and the submission gate. -/

/-- The character class `[a-zA-Z0-9_-]` of the name pattern. -/
def namePatternChar (c : Char) : Bool :=
  (decide ('a' ≤ c) && decide (c ≤ 'z')) ||
  (decide ('A' ≤ c) && decide (c ≤ 'Z')) ||
  (decide ('0' ≤ c) && decide (c ≤ '9')) ||
  c == '_' || c == '-'

/-- The anchored JavaScript regex test for the registered name pattern
(between 1 and 64 characters, all from `[a-zA-Z0-9_-]`). -/
def nameMatchesPattern (s : String) : Bool :=
  decide (1 ≤ s.length) && decide (s.length ≤ 64) && s.toList.all namePatternChar

/-- The `register("name", {required, pattern})` rules: present, non-empty
and matching the pattern. -/
def validateName (name : Option String) : Bool :=
  match name with
  | none => false
  | some s => (s != "") && nameMatchesPattern s

/-- The `register("role", {required})` rule: present and non-empty. -/
def validateRole (role : Option String) : Bool :=
  match role with
  | none => false
  | some s => s != ""

/-- The `rules={{required: true}}` rule on temperature: present (zero
counts as present). -/
def validateTemperature (t : Option ℚ) : Bool := t.isSome

/-- The form's `isValid`: the conjunction of all registered field rules. -/
def isValidDraft (d : MemberDraft) : Bool :=
  validateName d.name && validateRole d.role && validateTemperature d.temperature

/-- The `handleSubmit` gate: the submit handler (and hence the network
call, the returned request) runs only when the draft passes validation. -/
def attemptSubmit (d : MemberDraft) : Option MemberDraft :=
  if isValidDraft d then some d else none

/-- The Save button gate `isDisabled={!isDirty || !isValid}`. -/
def saveEnabled (dirty valid : Bool) : Bool := dirty && valid

/-! View selection and the type-selection control. -/

/-- The two presentation modes of the component. -/
inductive ViewMode
  | inlinePanel
  | modalDialog
deriving DecidableEq, Repr

/-- The render branch `if (member.type.endsWith("bot"))`: inline panel for
`bot`-suffixed types, modal dialog otherwise. -/
def selectView (memberType : String) : ViewMode :=
  if jsEndsWith memberType "bot" then .inlinePanel else .modalDialog

/-- The `isDisabled` predicate of the type-selection `FormControl`. -/
def typeSelectDisabled (memberType : String) : Bool :=
  (memberType == "root") || jsStartsWith memberType "freelancer" ||
    jsEndsWith memberType "bot"

/-- The option list of the type `Select`: `memberConfig.selection` for the
currently selected (watched) draft type. -/
def typeSelectOptions (draftType : String) : Option (List MemberTypes) :=
  (capabilitiesFor draftType).map MemberConfigs.selection

/-! Concrete example values used by the witnesses. -/

/-- A concrete valid draft of a `worker` member. -/
def exampleDraft : MemberDraft :=
  { memberType := "worker"
    name := some "alice"
    role := some "does research"
    backstory := none
    model := some "gpt-4"
    provider := some "openai"
    temperature := some (7 / 10 : ℚ)
    interrupt := false
    skills := []
    uploads := [] }

/-- A concrete open, non-submitting session seeded with `exampleDraft`. -/
def exampleState : SessionState :=
  { committed := exampleDraft
    draft := exampleDraft
    isOpen := true
    submitting := false }

/-- A concrete two-entry model catalog. -/
def exampleModels : List AIModel :=
  [{ ai_model_name := "gpt-4", provider := { provider_name := "openai" } },
   { ai_model_name := "claude-3", provider := { provider_name := "anthropic" } }]

/-- A concrete model-selection state over `exampleDraft`. -/
def exampleSelectState : ModelSelectState :=
  { draft := exampleDraft, selectedModelProvider := "openai" }

/-- A draft whose name violates the registered pattern. -/
def badNameDraft : MemberDraft := { exampleDraft with name := some "bad name!" }

/-! Claim C1 -/

/-- C1 counterexample: the claim that every member type belongs to its own
allowed-type-transition set fails at `workflow`, whose `selection` in
`ALLOWED_MEMBER_CONFIGS` is `[ragbot]`. -/
theorem c1_reflexivity_cex :
    MemberTypes.workflow ∉ (ALLOWED_MEMBER_CONFIGS MemberTypes.workflow).selection := by
  decide

/-- C1 (amended): the capability table is defined at every one of the 8
member types, every type other than `workflow` is a member of its own
allowed-type-transition set, and `workflow`'s allowed set is exactly
`[ragbot]`. -/
theorem c1_reflexivity_amended :
    ∀ t : MemberTypes,
      capabilitiesFor (memberTypeToString t) = some (ALLOWED_MEMBER_CONFIGS t) ∧
      (t ≠ MemberTypes.workflow → t ∈ (ALLOWED_MEMBER_CONFIGS t).selection) ∧
      (ALLOWED_MEMBER_CONFIGS MemberTypes.workflow).selection = [MemberTypes.ragbot] := by
  decide

/-- C1 witness: the amended theorem applied at the concrete type `worker`,
whose hypothesis `worker ≠ workflow` holds. -/
theorem c1_reflexivity_witness :
    MemberTypes.worker ∈ (ALLOWED_MEMBER_CONFIGS MemberTypes.worker).selection :=
  (c1_reflexivity_amended MemberTypes.worker).2.1 (by decide)

/-! Claim C4 -/

/-- C4: `capabilitiesFor` is total over exactly the 8 enumerated member
types — it returns the stored capability profile at each of their string
spellings — and returns no profile (the fatal `UnknownMemberType` failure)
at every other string. -/
theorem c4_capabilities_total :
    (∀ t : MemberTypes,
        capabilitiesFor (memberTypeToString t) = some (ALLOWED_MEMBER_CONFIGS t)) ∧
    (∀ s : String, s ∉ enumeratedTypeStrings → capabilitiesFor s = none) := by
  constructor
  · decide
  · intro s hs
    unfold capabilitiesFor
    split_ifs with h1 h2 h3 h4 h5 h6 h7 h8
    · exact absurd (by rw [h1]; decide : s ∈ enumeratedTypeStrings) hs
    · exact absurd (by rw [h2]; decide : s ∈ enumeratedTypeStrings) hs
    · exact absurd (by rw [h3]; decide : s ∈ enumeratedTypeStrings) hs
    · exact absurd (by rw [h4]; decide : s ∈ enumeratedTypeStrings) hs
    · exact absurd (by rw [h5]; decide : s ∈ enumeratedTypeStrings) hs
    · exact absurd (by rw [h6]; decide : s ∈ enumeratedTypeStrings) hs
    · exact absurd (by rw [h7]; decide : s ∈ enumeratedTypeStrings) hs
    · exact absurd (by rw [h8]; decide : s ∈ enumeratedTypeStrings) hs
    · rfl

/-- C4 witness: the totality part at the concrete type `root`, and the
failure part at the concrete non-enumerated string `gpt`. -/
theorem c4_capabilities_total_witness :
    capabilitiesFor (memberTypeToString MemberTypes.root) =
      some (ALLOWED_MEMBER_CONFIGS MemberTypes.root) ∧
    capabilitiesFor "gpt" = none :=
  ⟨c4_capabilities_total.1 MemberTypes.root,
   c4_capabilities_total.2 "gpt" (by decide)⟩

/-! Claim C2 -/

/-- Helper: unfolding of `skillOptions` on a cons cell. -/
theorem skillOptions_cons (s : Skill) (tl : List Skill) (cfg : MemberConfigs) :
    skillOptions (s :: tl) cfg =
      if (s.name != "ask-human") || cfg.enableHumanTool
      then toSkillOption s :: skillOptions tl cfg
      else skillOptions tl cfg := by
  simp only [skillOptions, List.filter_cons]
  split <;> simp

/-- Helper: with `enableHumanTool = false` the resolved options contain no
`ask-human` entry. -/
theorem skillOptions_human_count_zero (skills : List Skill) (cfg : MemberConfigs)
    (h : cfg.enableHumanTool = false) :
    (skillOptions skills cfg).countP (fun o => o.name == "ask-human") = 0 := by
  induction skills with
  | nil => rfl
  | cons s tl ih =>
    rw [skillOptions_cons, h, Bool.or_false]
    by_cases hn : s.name = "ask-human"
    · simp only [hn, bne_self_eq_false, Bool.false_eq_true, if_false]
      exact ih
    · rw [if_pos (by simpa using hn), List.countP_cons, ih]
      simp [toSkillOption, hn]

/-- Helper: with `enableHumanTool = true` the resolver keeps every catalog
entry, only decorating it. -/
theorem skillOptions_human_enabled (skills : List Skill) (cfg : MemberConfigs)
    (h : cfg.enableHumanTool = true) :
    skillOptions skills cfg = skills.map toSkillOption := by
  unfold skillOptions
  rw [h]
  simp

/-- Helper: the non-`ask-human` part of the resolved options is exactly the
decorated non-`ask-human` part of the catalog, in catalog order. -/
theorem skillOptions_filter_eq (skills : List Skill) (cfg : MemberConfigs) :
    (skillOptions skills cfg).filter (fun o => o.name != "ask-human") =
      (skills.filter (fun s => s.name != "ask-human")).map toSkillOption := by
  induction skills with
  | nil => rfl
  | cons s tl ih =>
    rw [skillOptions_cons, List.filter_cons]
    cases hn : s.name != "ask-human" with
    | false =>
      cases he : cfg.enableHumanTool with
      | false => simpa [hn, he] using ih
      | true => simpa [hn, he, List.filter_cons, toSkillOption] using ih
    | true => simpa [hn, List.filter_cons, toSkillOption] using ih

/-- C2: with `enableHumanTool = false` the resolved skill options never
contain an `ask-human` entry; with `enableHumanTool = true` and a catalog
containing `ask-human` exactly once they contain it exactly once; and the
non-`ask-human` skills are always mapped, in catalog order, to options whose
`label` is the skill's name and whose `value` is its id. -/
theorem c2_skill_options (skills : List Skill) (cfg : MemberConfigs) :
    (cfg.enableHumanTool = false →
        (skillOptions skills cfg).countP (fun o => o.name == "ask-human") = 0) ∧
    (cfg.enableHumanTool = true →
        skills.countP (fun s => s.name == "ask-human") = 1 →
        (skillOptions skills cfg).countP (fun o => o.name == "ask-human") = 1) ∧
    (skillOptions skills cfg).filter (fun o => o.name != "ask-human") =
      (skills.filter (fun s => s.name != "ask-human")).map toSkillOption := by
  refine ⟨fun h => skillOptions_human_count_zero skills cfg h, fun h hc => ?_,
    skillOptions_filter_eq skills cfg⟩
  rw [skillOptions_human_enabled skills cfg h, List.countP_map]
  exact hc

/-- C2 witness: the Scenario A catalog `[search, ask-human]` resolved for a
`worker` (human tool off) has no `ask-human` option, and resolved for a
`freelancer` (human tool on) has exactly one. -/
theorem c2_skill_options_witness :
    (skillOptions [{ id := 1, name := "search" }, { id := 2, name := "ask-human" }]
        (ALLOWED_MEMBER_CONFIGS MemberTypes.worker)).countP
        (fun o => o.name == "ask-human") = 0 ∧
    (skillOptions [{ id := 1, name := "search" }, { id := 2, name := "ask-human" }]
        (ALLOWED_MEMBER_CONFIGS MemberTypes.freelancer)).countP
        (fun o => o.name == "ask-human") = 1 :=
  ⟨(c2_skill_options _ _).1 rfl, (c2_skill_options _ _).2.1 rfl (by decide)⟩

/-! Claim C3 -/

/-- C3: model selection is atomic — when the lookup by name succeeds the
draft's `model` becomes the selected name and its `provider` becomes the
provider of the looked-up model, together; when the lookup fails the call
changes nothing at all. -/
theorem c3_model_select_atomic (models : Option (List AIModel)) (modelName : String)
    (st : ModelSelectState) :
    (∀ m, modelLookup models modelName = some m →
        (onModelSelect models modelName st).draft.model = some modelName ∧
        (onModelSelect models modelName st).draft.provider =
          some m.provider.provider_name) ∧
    (modelLookup models modelName = none → onModelSelect models modelName st = st) := by
  constructor
  · intro m hm
    unfold onModelSelect
    rw [hm]
    exact ⟨rfl, rfl⟩
  · intro hm
    unfold onModelSelect
    rw [hm]

/-- C3 witness: a successful lookup of `claude-3` in the concrete catalog
sets both fields to the looked-up pair, and a failed lookup of a name
absent from the catalog leaves the state unchanged. -/
theorem c3_model_select_atomic_witness :
    (onModelSelect (some exampleModels) "claude-3" exampleSelectState).draft.model =
      some "claude-3" ∧
    (onModelSelect (some exampleModels) "claude-3" exampleSelectState).draft.provider =
      some "anthropic" ∧
    onModelSelect (some exampleModels) "no-such-model" exampleSelectState =
      exampleSelectState :=
  ⟨((c3_model_select_atomic (some exampleModels) "claude-3" exampleSelectState).1
      { ai_model_name := "claude-3", provider := { provider_name := "anthropic" } }
      rfl).1,
   ((c3_model_select_atomic (some exampleModels) "claude-3" exampleSelectState).1
      { ai_model_name := "claude-3", provider := { provider_name := "anthropic" } }
      rfl).2,
   (c3_model_select_atomic (some exampleModels) "no-such-model" exampleSelectState).2 rfl⟩

/-! Claim C5 -/

/-- C5: on a failed submission the session stays open, the draft is
preserved unchanged, the notification sink receives the server's detail
string literally, and no retry request is issued. -/
theorem c5_failure_preserves_session (st : SessionState) (detail : String)
    (hOpen : st.isOpen = true) :
    (onMutationResult st (MutationResult.failure (some detail))).1.isOpen = true ∧
    (onMutationResult st (MutationResult.failure (some detail))).1.draft = st.draft ∧
    (onMutationResult st (MutationResult.failure (some detail))).2.1 =
      [{ title := "Something went wrong.", description := detail, status := "error" }] ∧
    (onMutationResult st (MutationResult.failure (some detail))).2.2 = [] := by
  refine ⟨?_, rfl, rfl, rfl⟩
  simpa [onMutationResult] using hOpen

/-- C5 witness: the failure handler applied to the concrete open session
with the Scenario E detail `duplicate name`. -/
theorem c5_failure_preserves_session_witness :
    (onMutationResult exampleState (MutationResult.failure (some "duplicate name"))).1.isOpen
      = true ∧
    (onMutationResult exampleState (MutationResult.failure (some "duplicate name"))).1.draft
      = exampleState.draft ∧
    (onMutationResult exampleState (MutationResult.failure (some "duplicate name"))).2.1 =
      [{ title := "Something went wrong.", description := "duplicate name",
         status := "error" }] ∧
    (onMutationResult exampleState (MutationResult.failure (some "duplicate name"))).2.2
      = [] :=
  c5_failure_preserves_session exampleState "duplicate name" rfl

/-! Claim C6 -/

/-- C6: on a successful submission the committed snapshot and the draft are
replaced by the server's returned member (so `isDirty` is false), the
session closes, and the notification sink receives a success event. -/
theorem c6_success_commits (st : SessionState) (data : MemberDraft) :
    (onMutationResult st (MutationResult.success data)).1.committed = data ∧
    (onMutationResult st (MutationResult.success data)).1.draft = data ∧
    isDirty (onMutationResult st (MutationResult.success data)).1 = false ∧
    (onMutationResult st (MutationResult.success data)).1.isOpen = false ∧
    (onMutationResult st (MutationResult.success data)).2.1 =
      [{ title := "Success!", description := "Team updated successfully.",
         status := "success" }] := by
  refine ⟨rfl, rfl, ?_, rfl, rfl⟩
  simp [onMutationResult, isDirty]

/-! Claim C7 -/

/-- C7: whenever any registered field rule fails — name missing or not
matching the pattern, role empty, or temperature absent — the draft is
invalid and the submission gate issues no request to the update API. -/
theorem c7_invalid_blocks_submit (d : MemberDraft)
    (h : validateName d.name = false ∨ validateRole d.role = false ∨
      validateTemperature d.temperature = false) :
    isValidDraft d = false ∧ attemptSubmit d = none := by
  have hv : isValidDraft d = false := by
    rcases h with h | h | h <;> simp [isValidDraft, h]
  exact ⟨hv, by simp [attemptSubmit, hv]⟩

/-- C7 witness: the Scenario C draft whose name is `bad name!` (space and
exclamation mark violate the pattern) is invalid and produces no request. -/
theorem c7_invalid_blocks_submit_witness :
    validateName badNameDraft.name = false ∧
    isValidDraft badNameDraft = false ∧ attemptSubmit badNameDraft = none := by
  have h : validateName badNameDraft.name = false := by decide
  exact ⟨h, c7_invalid_blocks_submit badNameDraft (Or.inl h)⟩

/-! Claim C8 -/

/-- C8: view selection is a pure function of the member's type — the edit
UI is the inline panel exactly when the type's name ends in `bot`, and the
modal dialog otherwise; over the 8 enumerated types the inline panel is
used exactly for `chatbot` and `ragbot`. -/
theorem c8_view_selection :
    (∀ memberType : String,
        (selectView memberType = ViewMode.inlinePanel ↔
          jsEndsWith memberType "bot" = true) ∧
        (selectView memberType = ViewMode.modalDialog ↔
          jsEndsWith memberType "bot" = false)) ∧
    (∀ t : MemberTypes,
        selectView (memberTypeToString t) = ViewMode.inlinePanel ↔
          (t = MemberTypes.chatbot ∨ t = MemberTypes.ragbot)) := by
  constructor
  · intro memberType
    cases h : jsEndsWith memberType "bot" <;> simp [selectView, h]
  · decide

/-! Claim C9 -/

/-- C9: over the 8 enumerated types, the type-selection control is disabled
exactly for `root`, the two `freelancer`-prefixed types and the two
`bot`-suffixed types; for every other type it is enabled and offers exactly
the allowed-transition set of the currently selected type. -/
theorem c9_type_select_control :
    ∀ t : MemberTypes,
      (typeSelectDisabled (memberTypeToString t) = true ↔
        t ∈ ([.root, .freelancer, .freelancer_root, .chatbot, .ragbot] :
          List MemberTypes)) ∧
      (typeSelectDisabled (memberTypeToString t) = false →
        typeSelectOptions (memberTypeToString t) =
          some (ALLOWED_MEMBER_CONFIGS t).selection) := by
  decide

/-- C9 witness: for the concrete enabled type `worker` the control offers
exactly `worker`'s allowed-transition set. -/
theorem c9_type_select_control_witness :
    typeSelectOptions (memberTypeToString MemberTypes.worker) =
      some [MemberTypes.worker, MemberTypes.leader] :=
  (c9_type_select_control MemberTypes.worker).2 (by decide)

/-! Claim C10 -/

/-- C10: the selected model provider starts as the string `openai`, and a
provider-changing step can only set it to the provider of a model present
in the fetched catalog, found either for an explicitly selected name or for
the member's stored model. -/
theorem c10_provider_default :
    initialSelectedModelProvider = "openai" ∧
    ∀ (models : Option (List AIModel)) (memberModel : Option String)
      (e : ProviderEvent) (p : String),
      providerStep models memberModel e p = p ∨
      ∃ l m, models = some l ∧ m ∈ l ∧
        providerStep models memberModel e p = m.provider.provider_name ∧
        ((∃ n, e = ProviderEvent.modelSelect n ∧ m.ai_model_name = n) ∨
          (e = ProviderEvent.memberModelEffect ∧ memberModel = some m.ai_model_name)) := by
  refine ⟨rfl, ?_⟩
  intro models memberModel e p
  cases e with
  | modelSelect modelName =>
    cases hm : modelLookup models modelName with
    | none => left; simp [providerStep, hm]
    | some m =>
      right
      obtain ⟨l, hl, hfind⟩ := Option.bind_eq_some.mp hm
      refine ⟨l, m, hl, List.mem_of_find?_eq_some hfind, by simp [providerStep, hm], ?_⟩
      exact Or.inl ⟨modelName, rfl, by simpa using List.find?_some hfind⟩
  | memberModelEffect =>
    cases memberModel with
    | none => left; rfl
    | some mm =>
      cases hm : modelLookup models mm with
      | none => left; simp [providerStep, hm]
      | some m =>
        right
        obtain ⟨l, hl, hfind⟩ := Option.bind_eq_some.mp hm
        refine ⟨l, m, hl, List.mem_of_find?_eq_some hfind, by simp [providerStep, hm], ?_⟩
        exact Or.inr ⟨rfl, by rw [(by simpa using List.find?_some hfind : m.ai_model_name = mm)]⟩

end Flock
